import Mathlib

/-!
Verification of the container-image installer/verifier in
`dangerzone/global_common.py` (methods `GlobalCommon.install_container`,
lines 428-461, and `GlobalCommon.is_container_installed`, lines 463-502),
as a shallow embedding.

Modelling choices, each tied to a source line:

* The runtime's image store, as observed through
  `podman image list --format ID dangerzone.rocks/dangerzone`
  (lines 473-485), is `Store := Option String`: the stripped output of the
  listing, `none` standing for empty output (no image under the tag).
  `store.getD ""` is exactly the code's `found_image_id` after `.strip()`.
* `image-id.txt` is re-opened and re-read at the top of every
  `is_container_installed` call (lines 468-469); since the file is external
  and may change between reads, the environment supplies the content seen by
  the first and by the second read (`file1`, `file2`), and results carry a
  count of reads performed.
* The listing subprocess is `subprocess.check_output`, which raises
  `CalledProcessError` on failure; the flag `listErr1`/`listErr2` says
  whether the call at the first/second check raises.  A raised Python
  exception that escapes the method is modelled as `Except.error`;
  the method's ordinary return values `None` / `True` / `False`
  (line 433 / 461 / 458) are `Except.ok` with an `Outcome`.
* `podman rmi --force` (lines 495-500) is wrapped in `try/except`, so its
  failure never escapes: it is a Bool (`rm1`/`rm2`) saying whether the
  removal succeeds; results carry a count of removal attempts.
* `podman load` (lines 438-454) is an external mutation of the store whose
  effect the code never inspects: `loadEffect : Store → Store` gives the
  store observed after the load subprocess finished, and `exitStatus` its
  exit status.  Note that line 454 is a bare `p.communicate()`: the exit
  status is never read, which the model reflects by `installContainer`
  not mentioning `exitStatus` at all.
* The gzip streaming loop (lines 446-453) is modelled twice: within
  `installContainer`, only its fallibility matters (`archive` is the
  decompressed content or a decompression error, which the code does not
  catch); the loop itself, chunked reads and writes to the load process's
  stdin, is embedded as `streamTrace`/`streamWrites` over the decompressed
  byte list.
-/

/-- The store record for the application tag: the digest currently tagged
`dangerzone.rocks/dangerzone`, or `none` when the listing output is empty. -/
abbrev Store : Type := Option String

/-- The three return values of `install_container`:
`None` (line 433), `True` (line 461), `False` (line 458). -/
inductive Outcome where
  | alreadyInstalled
  | installed
  | failed
  deriving DecidableEq, Repr

/-- A Python exception escaping the component: `CalledProcessError` from the
image-listing `check_output` (line 473), or a gzip decompression error from
the streaming loop (line 446-448). -/
inductive UErr where
  | listFailed
  | archiveCorrupt
  deriving DecidableEq, Repr

/-- Counts of the observable side effects of one `install_container` run:
invocations of the `load` subcommand, attempts at `rmi --force`, and reads
of the bundled `image-id.txt`. -/
structure Stats where
  loads : Nat
  rms : Nat
  reads : Nat
  deriving DecidableEq, Repr

/-- External nondeterminism of one `install_container` run. -/
structure Env where
  /-- Content (stripped) of `image-id.txt` at the first read (line 468-469). -/
  file1 : String
  /-- Content of `image-id.txt` at the second read, inside the post-install
  re-check (same lines, second call). -/
  file2 : String
  /-- Whether `check_output` for the image listing raises at the first check. -/
  listErr1 : Bool
  /-- Whether it raises at the second check. -/
  listErr2 : Bool
  /-- Whether `rmi --force` succeeds at the first check (line 495-498). -/
  rm1 : Bool
  /-- Whether `rmi --force` succeeds at the second check. -/
  rm2 : Bool
  /-- The decompressed archive bytes, or the decompression error raised by
  `gzip` on a corrupt/truncated archive (lines 446-448). -/
  archive : Except UErr (List Nat)
  /-- Store observed after the `load` subprocess completed (line 454):
  an external effect on the prior store that the code never inspects. -/
  loadEffect : Store → Store
  /-- Exit status of the `load` subprocess.  `p.communicate()` on line 454
  discards it; nothing below depends on it. -/
  exitStatus : Int

/-- The pure classification inside `is_container_installed`
(lines 487-491): `found_image_id == expected_image_id` is Matching,
`found_image_id == ""` is Missing, anything else is Stale. -/
inductive DigestClass where
  | matching
  | missing
  | stale
  deriving DecidableEq, Repr

/-- `classify expected found`: the comparison chain of lines 487-491,
where `found` is the stripped listing output ("" when no image is tagged). -/
def classify (expected found : String) : DigestClass :=
  if found = expected then .matching
  else if found = "" then .missing
  else .stale

/-- One `is_container_installed` call (lines 463-502), given the content
read from `image-id.txt`, whether the listing subprocess raises, whether a
removal would succeed, and the store.  Returns the `installed` flag, the
store after the call (removal may have emptied it), and the number of
removal attempts; `Except.error` is the uncaught `CalledProcessError`. -/
def isContainerInstalled (expected : String) (listErr : Bool) (rmOk : Bool)
    (store : Store) : Except UErr (Bool × Store × Nat) :=
  if listErr then .error .listFailed
  else
    let found := store.getD ""
    if found = expected then .ok (true, store, 0)
    else if found = "" then .ok (false, store, 0)
    else .ok (false, if rmOk then none else store, 1)

/-- The continuation of `install_container` after the first check returned
False (lines 435-461): start the `load` subprocess, stream the archive
(raising on a corrupt archive, uncaught), let the load's external effect
happen, ignore the exit status, and re-run `is_container_installed`.
`s1` is the store after the first check, `r1` its removal-attempt count. -/
def installCont (env : Env) (s1 : Store) (r1 : Nat) :
    Except UErr (Outcome × Store × Stats) :=
  match env.archive with
  | .error e => .error e
  | .ok _content =>
    match isContainerInstalled env.file2 env.listErr2 env.rm2 (env.loadEffect s1) with
    | .error e => .error e
    | .ok (true, s3, r2) => .ok (.installed, s3, ⟨1, r1 + r2, 2⟩)
    | .ok (false, s3, r2) => .ok (.failed, s3, ⟨1, r1 + r2, 2⟩)

/-- `install_container` (lines 428-461): first check; on True return `None`
(`alreadyInstalled`); otherwise load, stream, re-check, and return `True`
(`installed`) or `False` (`failed`). -/
def installContainer (env : Env) (store : Store) :
    Except UErr (Outcome × Store × Stats) :=
  match isContainerInstalled env.file1 env.listErr1 env.rm1 store with
  | .error e => .error e
  | .ok (true, s1, r1) => .ok (.alreadyInstalled, s1, ⟨0, r1, 1⟩)
  | .ok (false, s1, r1) => installCont env s1 r1

/-- An event of the streaming loop (lines 446-453): a `f.read(chunk_size)`
returning the given bytes, or a `p.stdin.write` of the given bytes. -/
inductive Ev where
  | read (b : List Nat)
  | write (b : List Nat)
  deriving DecidableEq, Repr

/-- The event trace of the streaming loop of lines 446-453 on decompressed
content `content` with chunk size `C`: read a chunk; if non-empty, write it
and continue on the rest; if empty, stop (the final read is recorded). -/
def streamTrace (C : Nat) (content : List Nat) : List Ev :=
  if h : 0 < (content.take C).length then
    Ev.read (content.take C) :: Ev.write (content.take C) :: streamTrace C (content.drop C)
  else
    [Ev.read (content.take C)]
  termination_by content.length
  decreasing_by
    simp only [List.length_take, List.length_drop] at h ⊢
    omega

/-- The chunks written to the load process's stdin, in order. -/
def streamWrites (C : Nat) (content : List Nat) : List (List Nat) :=
  (streamTrace C content).filterMap fun e =>
    match e with
    | Ev.write b => some b
    | Ev.read _ => none

/-! ### Unfolding lemmas for the streaming loop -/

lemma streamTrace_nil (C : Nat) : streamTrace C [] = [Ev.read []] := by
  rw [streamTrace]
  simp

lemma streamTrace_cons (C : Nat) (content : List Nat) (hC : 0 < C) (hc : content ≠ []) :
    streamTrace C content =
      Ev.read (content.take C) :: Ev.write (content.take C) ::
        streamTrace C (content.drop C) := by
  rw [streamTrace]
  have h : 0 < (content.take C).length := by
    rw [List.length_take]
    exact Nat.lt_min.mpr ⟨hC, List.length_pos.mpr hc⟩
  rw [dif_pos h]

lemma streamWrites_nil (C : Nat) : streamWrites C [] = [] := by
  simp [streamWrites, streamTrace_nil]

lemma streamWrites_cons (C : Nat) (content : List Nat) (hC : 0 < C) (hc : content ≠ []) :
    streamWrites C content = content.take C :: streamWrites C (content.drop C) := by
  simp [streamWrites, streamTrace_cons C content hC hc]

lemma streamWrites_join (C : Nat) (hC : 0 < C) (content : List Nat) :
    (streamWrites C content).flatten = content := by
  have main : ∀ (n : Nat) (l : List Nat), l.length ≤ n → (streamWrites C l).flatten = l := by
    intro n
    induction n with
    | zero =>
      intro l hlen
      have hl : l = [] := List.eq_nil_of_length_eq_zero (Nat.le_zero.mp hlen)
      subst hl
      simp [streamWrites_nil]
    | succ n ih =>
      intro l hlen
      rcases eq_or_ne l [] with hl | hl
      · subst hl
        simp [streamWrites_nil]
      · rw [streamWrites_cons C l hC hl, List.flatten_cons]
        have hdrop : (l.drop C).length ≤ n := by
          have hpos : 0 < l.length := List.length_pos.mpr hl
          rw [List.length_drop]
          omega
        rw [ih (l.drop C) hdrop]
        exact List.take_append_drop C l
  exact main content.length content le_rfl

lemma streamWrites_length (C : Nat) (hC : 0 < C) (content : List Nat) :
    (streamWrites C content).length = (content.length + C - 1) / C := by
  have main : ∀ (n : Nat) (l : List Nat), l.length ≤ n →
      (streamWrites C l).length = (l.length + C - 1) / C := by
    intro n
    induction n with
    | zero =>
      intro l hlen
      have hl : l = [] := List.eq_nil_of_length_eq_zero (Nat.le_zero.mp hlen)
      subst hl
      simp [streamWrites_nil, Nat.div_eq_of_lt (by omega : C - 1 < C)]
    | succ n ih =>
      intro l hlen
      rcases eq_or_ne l [] with hl | hl
      · subst hl
        simp [streamWrites_nil, Nat.div_eq_of_lt (by omega : C - 1 < C)]
      · have hpos : 0 < l.length := List.length_pos.mpr hl
        rw [streamWrites_cons C l hC hl]
        rcases Nat.lt_or_ge l.length C with hlt | hge
        · have hdrop : l.drop C = [] := List.drop_eq_nil_of_le (Nat.le_of_lt hlt)
          rw [hdrop, streamWrites_nil]
          have hsplit : l.length + C - 1 = (l.length - 1) + C * 1 := by omega
          rw [List.length_cons, List.length_nil, hsplit,
            Nat.add_mul_div_left _ _ hC, Nat.div_eq_of_lt (by omega : l.length - 1 < C)]
        · have hdrop : (l.drop C).length ≤ n := by
            rw [List.length_drop]
            omega
          rw [List.length_cons, ih (l.drop C) hdrop, List.length_drop]
          have hsplit : l.length + C - 1 = (l.length - C + C - 1) + C := by omega
          rw [hsplit, Nat.add_div_right _ hC]
  exact main content.length content le_rfl

lemma streamTrace_empty_read_terminates (C : Nat) (hC : 0 < C) (content : List Nat) :
    ∀ pre suf, streamTrace C content = pre ++ Ev.read [] :: suf → suf = [] := by
  have main : ∀ (n : Nat) (l : List Nat), l.length ≤ n →
      ∀ pre suf, streamTrace C l = pre ++ Ev.read [] :: suf → suf = [] := by
    intro n
    induction n with
    | zero =>
      intro l hlen pre suf h
      have hl : l = [] := List.eq_nil_of_length_eq_zero (Nat.le_zero.mp hlen)
      subst hl
      rw [streamTrace_nil] at h
      have hlength := congrArg List.length h
      simp at hlength
      have hsuf : suf.length = 0 := by omega
      exact List.eq_nil_of_length_eq_zero hsuf
    | succ n ih =>
      intro l hlen pre suf h
      rcases eq_or_ne l [] with hl | hl
      · subst hl
        rw [streamTrace_nil] at h
        have hlength := congrArg List.length h
        simp at hlength
        have hsuf : suf.length = 0 := by omega
        exact List.eq_nil_of_length_eq_zero hsuf
      · have hpos : 0 < l.length := List.length_pos.mpr hl
        have htake : l.take C ≠ [] := by
          have : 0 < (l.take C).length := by
            rw [List.length_take]
            exact Nat.lt_min.mpr ⟨hC, hpos⟩
          exact List.ne_nil_of_length_pos this
        rw [streamTrace_cons C l hC hl] at h
        match pre with
        | [] =>
          rw [List.nil_append] at h
          have := (List.cons.injEq _ _ _ _).mp h
          exact absurd (Ev.read.injEq _ _ ▸ this.1) htake
        | [a] =>
          simp only [List.cons_append, List.nil_append, List.cons.injEq] at h
          exact absurd h.2.1 (by simp)
        | a :: b :: pre2 =>
          simp only [List.cons_append, List.cons.injEq] at h
          have hdrop : (l.drop C).length ≤ n := by
            rw [List.length_drop]
            omega
          exact ih (l.drop C) hdrop pre2 suf h.2.2
  exact main content.length content le_rfl

/-! ### Claim theorems: the classification and the streaming loop -/

/-- C1 counterexample: at expected digest `""` and absent current digest
(empty listing output), lines 487-491 classify Matching (the equality test
comes first), while the claim requires every absent current digest to be
classified Missing.  So "Missing iff the found digest is absent" is false
as stated. -/
theorem c1_cex : classify "" "" = DigestClass.matching ∧
    ¬(classify "" "" = DigestClass.missing) := by
  decide

/-- C1 amended: `classify` returns Matching iff the found digest equals the
expected digest; Missing iff the found digest is absent (empty) and the
expected digest is non-empty (otherwise the pair already matches); Stale
otherwise; and no input is classified as both Stale and Missing. -/
theorem c1_classify (expected found : String) :
    (classify expected found = DigestClass.matching ↔ found = expected) ∧
    (classify expected found = DigestClass.missing ↔ (found = "" ∧ expected ≠ "")) ∧
    (classify expected found = DigestClass.stale ↔ (found ≠ "" ∧ found ≠ expected)) ∧
    ¬(classify expected found = DigestClass.missing ∧
      classify expected found = DigestClass.stale) := by
  unfold classify
  split_ifs with h1 h2 <;> simp_all <;> tauto

/-- C3: the streaming loop of lines 444-453, run on decompressed content of
`N = content.length` bytes with chunk size `C > 0` (the code uses 10240),
writes chunks whose in-order concatenation is exactly the content, performs
exactly `ceil(N/C) = (N + C - 1) / C` writes, and performs nothing — in
particular no write — after the first zero-length read, which terminates
the trace. -/
theorem c3_streaming (C : Nat) (content : List Nat) (hC : 0 < C) :
    (streamWrites C content).flatten = content ∧
    (streamWrites C content).length = (content.length + C - 1) / C ∧
    (∀ pre suf, streamTrace C content = pre ++ Ev.read [] :: suf → suf = []) :=
  ⟨streamWrites_join C hC content, streamWrites_length C hC content,
    streamTrace_empty_read_terminates C hC content⟩

/-- Witness for C3 at chunk size 3 and a 7-byte content. -/
theorem c3_witness :
    0 < 3 ∧
    ((streamWrites 3 [1, 2, 3, 4, 5, 6, 7]).flatten = [1, 2, 3, 4, 5, 6, 7] ∧
     (streamWrites 3 [1, 2, 3, 4, 5, 6, 7]).length =
       ([1, 2, 3, 4, 5, 6, 7].length + 3 - 1) / 3 ∧
     (∀ pre suf, streamTrace 3 [1, 2, 3, 4, 5, 6, 7] = pre ++ Ev.read [] :: suf →
       suf = [])) :=
  ⟨by decide, c3_streaming 3 [1, 2, 3, 4, 5, 6, 7] (by decide)⟩

/-! ### Helper lemmas about one identity check -/

lemma isCI_matching (expected : String) (rmOk : Bool) (store : Store)
    (h : store.getD "" = expected) :
    isContainerInstalled expected false rmOk store = .ok (true, store, 0) := by
  simp [isContainerInstalled, h]

lemma isCI_missing (expected : String) (rmOk : Bool) (store : Store)
    (h0 : store.getD "" = "") (hne : store.getD "" ≠ expected) :
    isContainerInstalled expected false rmOk store = .ok (false, store, 0) := by
  simp [isContainerInstalled, h0, hne]
  intro hc
  exact hne (h0.trans hc)

lemma isCI_stale (expected : String) (rmOk : Bool) (store : Store)
    (hne : store.getD "" ≠ expected) (hnn : store.getD "" ≠ "") :
    isContainerInstalled expected false rmOk store =
      .ok (false, if rmOk then none else store, 1) := by
  simp [isContainerInstalled, hne, hnn]

lemma isCI_ok_true (expected : String) (listErr : Bool) (rmOk : Bool)
    (store s : Store) (r : Nat)
    (h : isContainerInstalled expected listErr rmOk store = .ok (true, s, r)) :
    s = store ∧ store.getD "" = expected ∧ r = 0 := by
  simp only [isContainerInstalled] at h
  split_ifs at h with h1 h2 h3 <;> simp_all

lemma installContainer_success_store (env : Env) (store : Store) (out : Outcome)
    (s2 : Store) (st : Stats) (D : String)
    (hf1 : env.file1 = D) (hf2 : env.file2 = D)
    (h : installContainer env store = .ok (out, s2, st)) (ho : out ≠ Outcome.failed) :
    s2.getD "" = D := by
  unfold installContainer at h
  split at h
  · simp at h
  case _ s1 r1 heq =>
    obtain ⟨hs, hd, _⟩ := isCI_ok_true _ _ _ _ _ _ heq
    simp only [Except.ok.injEq, Prod.mk.injEq] at h
    rw [← h.2.1, hs, hd, hf1]
  case _ s1 r1 heq =>
    unfold installCont at h
    split at h
    · simp at h
    · split at h
      · simp at h
      case _ s3 r2 heq2 =>
        obtain ⟨hs, hd, _⟩ := isCI_ok_true _ _ _ _ _ _ heq2
        simp only [Except.ok.injEq, Prod.mk.injEq] at h
        rw [← h.2.1, hs, hd, hf2]
      case _ s3 r2 heq2 =>
        simp only [Except.ok.injEq, Prod.mk.injEq] at h
        exact absurd h.1.symm ho

/-! ### Claim theorems: the installer state machine -/

/-- C2: whenever `install_container` returns a success value (`None`, i.e.
already installed, or `True`, i.e. installed) and the bundled digest file
held the same digest `D` at both reads, the digest the store then associates
with the tag — the store holds at most one, being the single stripped
listing result — equals `D`. -/
theorem c2_success_store (env : Env) (store : Store) (out : Outcome) (s2 : Store)
    (st : Stats) (D d : String)
    (hf1 : env.file1 = D) (hf2 : env.file2 = D)
    (h : installContainer env store = .ok (out, s2, st))
    (hsucc : out = Outcome.alreadyInstalled ∨ out = Outcome.installed)
    (hd : s2 = some d) :
    d = D := by
  have ho : out ≠ Outcome.failed := by
    rcases hsucc with h1 | h1 <;> simp [h1]
  have hs := installContainer_success_store env store out s2 st D hf1 hf2 h ho
  rw [hd] at hs
  simpa using hs

/-- Witness for C2: a run from an empty store that installs digest "abc". -/
theorem c2_witness : "abc" = "abc" :=
  c2_success_store
    ⟨"abc", "abc", false, false, true, true, Except.ok [], fun _ => some "abc", 0⟩
    none Outcome.installed (some "abc") ⟨1, 0, 2⟩ "abc" "abc"
    rfl rfl (by rfl) (Or.inr rfl) rfl

/-- C6: when the first identity check finds the store digest equal to the
expected digest (Matching), `install_container` returns `None`
(already installed) at once, with zero load invocations, zero removal
attempts, one metadata read, and the store unchanged. -/
theorem c6_matching_noop (env : Env) (store : Store)
    (hl : env.listErr1 = false) (hm : store.getD "" = env.file1) :
    installContainer env store =
      .ok (Outcome.alreadyInstalled, store, ⟨0, 0, 1⟩) := by
  unfold installContainer
  have hc : isContainerInstalled env.file1 env.listErr1 env.rm1 store =
      .ok (true, store, 0) := by
    rw [hl]
    exact isCI_matching env.file1 env.rm1 store hm
  rw [hc]

/-- Witness for C6: store already holds the expected digest "m". -/
theorem c6_witness :
    installContainer ⟨"m", "m", false, false, true, true, Except.ok [], fun s => s, 0⟩
      (some "m") =
      Except.ok (Outcome.alreadyInstalled, some "m", ⟨0, 0, 1⟩) :=
  c6_matching_noop ⟨"m", "m", false, false, true, true, Except.ok [], fun s => s, 0⟩
    (some "m") rfl rfl

/-- C5: if one `install_container` run against a store returns a success
value (`None` or `True`) while the bundled digest file holds `D`, a second
run on the resulting store (no external mutation in between, digest file
still `D`, listing working) returns `None` (already installed) with zero
load invocations. -/
theorem c5_idempotent (env1 env2 : Env) (store : Store) (D : String)
    (out : Outcome) (s2 : Store) (st : Stats)
    (hf1 : env1.file1 = D) (hf2 : env1.file2 = D)
    (hg1 : env2.file1 = D) (hl : env2.listErr1 = false)
    (h : installContainer env1 store = .ok (out, s2, st))
    (hsucc : out = Outcome.alreadyInstalled ∨ out = Outcome.installed) :
    installContainer env2 s2 = .ok (Outcome.alreadyInstalled, s2, ⟨0, 0, 1⟩) := by
  have ho : out ≠ Outcome.failed := by
    rcases hsucc with h1 | h1 <;> simp [h1]
  have hs : s2.getD "" = D :=
    installContainer_success_store env1 store out s2 st D hf1 hf2 h ho
  exact c6_matching_noop env2 s2 hl (by rw [hg1]; exact hs)

/-- Witness for C5: an install of digest "k" followed by a second run. -/
theorem c5_witness :
    installContainer ⟨"k", "q", false, false, true, true, Except.ok [], fun s => s, 0⟩
      (some "k") =
      Except.ok (Outcome.alreadyInstalled, some "k", ⟨0, 0, 1⟩) :=
  c5_idempotent
    ⟨"k", "k", false, false, true, true, Except.ok [], fun _ => some "k", 0⟩
    ⟨"k", "q", false, false, true, true, Except.ok [], fun s => s, 0⟩
    none "k" Outcome.installed (some "k") ⟨1, 0, 2⟩
    rfl rfl rfl rfl (by rfl) (Or.inr rfl)

/-- C7: when the first identity check finds a digest `d` under the tag that
differs from the expected digest and is non-empty (Stale), a removal is
attempted (the removal-attempt count passed on is 1) and the run continues
into the continuation `installCont` — the very continuation a Missing store
runs with count 0 — whether or not the removal succeeds (`env.rm1` is
unconstrained), so a removal failure is tolerated, never propagated. -/
theorem c7_stale_removal (env : Env) (d : String)
    (hl : env.listErr1 = false) (hne : d ≠ env.file1) (hnn : d ≠ "") :
    installContainer env (some d) =
      installCont env (if env.rm1 then none else some d) 1 ∧
    (env.file1 ≠ "" → installContainer env none = installCont env none 0) := by
  constructor
  · unfold installContainer
    have hc : isContainerInstalled env.file1 env.listErr1 env.rm1 (some d) =
        .ok (false, if env.rm1 then none else some d, 1) := by
      rw [hl]
      exact isCI_stale env.file1 env.rm1 (some d) (by simpa using hne)
        (by simpa using hnn)
    rw [hc]
  · intro hfe
    unfold installContainer
    have hc : isContainerInstalled env.file1 env.listErr1 env.rm1 none =
        .ok (false, none, 0) := by
      rw [hl]
      exact isCI_missing env.file1 env.rm1 none (by simp)
        (by simpa using (Ne.symm hfe))
    rw [hc]

/-- Witness for C7: a stale digest "old" with a failing removal
(`rm1 = false`), expected digest "n". -/
theorem c7_witness :
    (installContainer ⟨"n", "n", false, false, false, true, Except.ok [], fun s => s, 0⟩
        (some "old") =
      installCont ⟨"n", "n", false, false, false, true, Except.ok [], fun s => s, 0⟩
        (if false then none else some "old") 1) ∧
    ((("n" : String) ≠ "") →
      installContainer ⟨"n", "n", false, false, false, true, Except.ok [], fun s => s, 0⟩
          none =
        installCont ⟨"n", "n", false, false, false, true, Except.ok [], fun s => s, 0⟩
          none 0) :=
  c7_stale_removal ⟨"n", "n", false, false, false, true, Except.ok [], fun s => s, 0⟩
    "old" rfl (by decide) (by decide)

/-- C10: when the post-install re-verification finds a digest `d` under the
tag that differs from the expected digest (and is non-empty), the run
returns the failure value `False` only after attempting a forced removal of
`d` (removal-attempt count 1 in the final stats), and when that removal
succeeds the returned store differs from the store the load left behind:
a failed install is not side-effect-free after the load step. -/
theorem c10_postcheck_mutates (env : Env) (d : String) (content : List Nat)
    (h1 : env.listErr1 = false) (h2 : env.listErr2 = false)
    (hf : env.file1 ≠ "")
    (ha : env.archive = Except.ok content)
    (hload : env.loadEffect none = some d)
    (hne : d ≠ env.file2) (hnn : d ≠ "") :
    installContainer env none =
      .ok (Outcome.failed, (if env.rm2 then none else some d : Store), ⟨1, 1, 2⟩) ∧
    (env.rm2 = true →
      (if env.rm2 then none else some d : Store) ≠ env.loadEffect none) := by
  constructor
  · have hc1 : isContainerInstalled env.file1 env.listErr1 env.rm1 none =
        .ok (false, none, 0) := by
      rw [h1]
      exact isCI_missing env.file1 env.rm1 none (by simp)
        (by simpa using (Ne.symm hf))
    have hc2 : isContainerInstalled env.file2 env.listErr2 env.rm2
        (env.loadEffect none) =
        .ok (false, if env.rm2 then none else some d, 1) := by
      rw [h2, hload]
      exact isCI_stale env.file2 env.rm2 (some d) (by simpa using hne)
        (by simpa using hnn)
    simp only [installContainer, hc1, installCont, ha, hc2]
  · intro hrm
    rw [hrm, hload]
    simp

/-- Witness for C10: load leaves wrong digest "bad", expected "p",
removal at the re-check succeeds. -/
theorem c10_witness :
    (installContainer ⟨"p", "p", false, false, true, true, Except.ok [1], fun _ => some "bad", 0⟩
        none =
      Except.ok (Outcome.failed, (none : Store), ⟨1, 1, 2⟩)) ∧
    ((true : Bool) = true → (none : Store) ≠ some "bad") :=
  c10_postcheck_mutates
    ⟨"p", "p", false, false, true, true, Except.ok [1], fun _ => some "bad", 0⟩
    "bad" [1] rfl rfl (by decide) rfl rfl (by decide) (by decide)

/-- C4 counterexample: a run in which the load subprocess exits with status
1, yet `install_container` returns `True` (installed), because line 454 is a
bare `p.communicate()` — the exit status is never consulted; the outcome is
decided only by re-running the identity check, which here finds the expected
digest.  So the outcome is not `Failed` and not determined by the exit
status, contradicting the claim. -/
theorem c4_cex :
    installContainer
        ⟨"a", "a", false, false, true, true, Except.ok [], fun _ => some "a", 1⟩
        none =
      Except.ok (Outcome.installed, some "a", ⟨1, 0, 2⟩) ∧
    ((1 : Int) ≠ 0) := by
  constructor
  · rfl
  · decide

/-- C4 amended: `install_container` ignores the load subprocess's exit
status entirely: the result is the same for every exit status, and on a run
that reaches the load step the outcome is decided solely by the post-load
re-verification — `True` (installed) when the re-checked store digest equals
the re-read expected digest, `False` (failed) otherwise; the store is
whatever that re-check leaves (it may remove a mismatched digest, so the
pre-call state is not always restored). -/
theorem c4_exit_ignored (env : Env) (store : Store) (content : List Nat)
    (h1 : env.listErr1 = false) (h2 : env.listErr2 = false)
    (hmiss : store.getD "" = "") (hf : env.file1 ≠ "")
    (ha : env.archive = Except.ok content)
    (hexit : env.exitStatus ≠ 0) :
    (∀ e, installContainer { env with exitStatus := e } store =
      installContainer env store) ∧
    ∃ s3 st, installContainer env store =
      .ok ((if (env.loadEffect store).getD "" = env.file2 then Outcome.installed
            else Outcome.failed), s3, st) := by
  constructor
  · intro e
    cases env
    rfl
  · have hc1 : isContainerInstalled env.file1 env.listErr1 env.rm1 store =
        .ok (false, store, 0) := by
      rw [h1]
      exact isCI_missing env.file1 env.rm1 store hmiss
        (by rw [hmiss]; exact Ne.symm hf)
    by_cases hm2 : (env.loadEffect store).getD "" = env.file2
    · refine ⟨env.loadEffect store, ⟨1, 0 + 0, 2⟩, ?_⟩
      have hc2 : isContainerInstalled env.file2 env.listErr2 env.rm2
          (env.loadEffect store) = .ok (true, env.loadEffect store, 0) := by
        rw [h2]
        exact isCI_matching env.file2 env.rm2 _ hm2
      simp only [installContainer, hc1, installCont, ha, hc2, if_pos hm2]
    · by_cases hm0 : (env.loadEffect store).getD "" = ""
      · refine ⟨env.loadEffect store, ⟨1, 0 + 0, 2⟩, ?_⟩
        have hc2 : isContainerInstalled env.file2 env.listErr2 env.rm2
            (env.loadEffect store) = .ok (false, env.loadEffect store, 0) := by
          rw [h2]
          exact isCI_missing env.file2 env.rm2 _ hm0 hm2
        simp only [installContainer, hc1, installCont, ha, hc2, if_neg hm2]
      · refine ⟨if env.rm2 then none else env.loadEffect store, ⟨1, 0 + 1, 2⟩, ?_⟩
        have hc2 : isContainerInstalled env.file2 env.listErr2 env.rm2
            (env.loadEffect store) =
            .ok (false, if env.rm2 then none else env.loadEffect store, 1) := by
          rw [h2]
          exact isCI_stale env.file2 env.rm2 _ hm2 hm0
        simp only [installContainer, hc1, installCont, ha, hc2, if_neg hm2]

/-- Witness for C4 (amended): exit status 2, load leaves nothing, run
fails through the re-check. -/
theorem c4_witness :
    (∀ e, installContainer
        { (⟨"a", "b", false, false, true, true, Except.ok [],
            fun _ => none, 2⟩ : Env) with exitStatus := e } none =
      installContainer
        ⟨"a", "b", false, false, true, true, Except.ok [], fun _ => none, 2⟩ none) ∧
    ∃ s3 st, installContainer
        ⟨"a", "b", false, false, true, true, Except.ok [], fun _ => none, 2⟩ none =
      Except.ok (Outcome.failed, s3, st) :=
  c4_exit_ignored
    ⟨"a", "b", false, false, true, true, Except.ok [], fun _ => none, 2⟩
    none [] rfl rfl rfl (by decide) rfl (by decide)

/-- C8 counterexample: with a corrupt archive, `install_container` does not
return any of its typed outcome values — the gzip decompression error
propagates out of the method (lines 446-453 have no try/except), so the
failure crosses the component boundary as a raised exception, not as a
typed failure result. -/
theorem c8_cex :
    installContainer
        ⟨"a", "a", false, false, true, true, Except.error UErr.archiveCorrupt,
          fun s => s, 0⟩ none =
      Except.error UErr.archiveCorrupt ∧
    ∀ r : Outcome × Store × Stats,
      installContainer
          ⟨"a", "a", false, false, true, true, Except.error UErr.archiveCorrupt,
            fun s => s, 0⟩ none ≠ Except.ok r := by
  refine ⟨rfl, ?_⟩
  intro r h
  rw [show installContainer
      ⟨"a", "a", false, false, true, true, Except.error UErr.archiveCorrupt,
        fun s => s, 0⟩ none = Except.error UErr.archiveCorrupt from rfl] at h
  exact Except.noConfusion h

/-- C8 amended: failures of the identity check (the listing subprocess
raising) and of the streaming step (a corrupt archive) propagate out of
`install_container` as raised exceptions; they are not converted into the
method's typed return values.  Only the stale-image removal failure is
caught and tolerated (it is a Bool in the model, never an error). -/
theorem c8_raises (env : Env) (store : Store) (er : UErr)
    (h1 : env.listErr1 = false) (hmiss : store.getD "" ≠ env.file1)
    (ha : env.archive = Except.error er) :
    installContainer env store = Except.error er ∧
    installContainer { env with listErr1 := true } store =
      Except.error UErr.listFailed := by
  constructor
  · by_cases h0 : store.getD "" = ""
    · have hc1 : isContainerInstalled env.file1 env.listErr1 env.rm1 store =
          .ok (false, store, 0) := by
        rw [h1]
        exact isCI_missing env.file1 env.rm1 store h0 hmiss
      simp only [installContainer, hc1, installCont, ha]
    · have hc1 : isContainerInstalled env.file1 env.listErr1 env.rm1 store =
          .ok (false, if env.rm1 then none else store, 1) := by
        rw [h1]
        exact isCI_stale env.file1 env.rm1 store hmiss h0
      simp only [installContainer, hc1, installCont, ha]
  · simp [installContainer, isContainerInstalled]

/-- Witness for C8 (amended): stale store "y", expected "x", corrupt
archive. -/
theorem c8_witness :
    installContainer
        ⟨"x", "x", false, false, false, false, Except.error UErr.archiveCorrupt,
          fun s => s, 0⟩ (some "y") =
      Except.error UErr.archiveCorrupt ∧
    installContainer
        { (⟨"x", "x", false, false, false, false, Except.error UErr.archiveCorrupt,
            fun s => s, 0⟩ : Env) with listErr1 := true } (some "y") =
      Except.error UErr.listFailed :=
  c8_raises
    ⟨"x", "x", false, false, false, false, Except.error UErr.archiveCorrupt,
      fun s => s, 0⟩ (some "y") UErr.archiveCorrupt rfl (by decide) rfl

/-- C9 counterexample: `image-id.txt` is re-opened and re-read inside every
`is_container_installed` call (lines 468-469), not read once per process.
Here the file holds "a" at the first read and "b" at the second; the run
returns `True` (installed) because the post-install check compares against
the re-read "b" — had the check used the single initially-read value "a"
(second run shown, where both reads return "a"), the same run would return
`False`.  Each run also performs two reads, not one. -/
theorem c9_cex :
    installContainer
        ⟨"a", "b", false, false, true, true, Except.ok [], fun _ => some "b", 0⟩
        none =
      Except.ok (Outcome.installed, some "b", ⟨1, 0, 2⟩) ∧
    installContainer
        ⟨"a", "a", false, false, true, true, Except.ok [], fun _ => some "b", 0⟩
        none =
      Except.ok (Outcome.failed, none, ⟨1, 1, 2⟩) :=
  ⟨rfl, rfl⟩

/-- C9 amended: the expected digest is read from `image-id.txt` once per
identity check, so an `install_container` run that returns a value performs
one read when it returns `None` (already installed) and two reads
otherwise, each check using the file content of its own read. -/
theorem c9_reads_per_check (env : Env) (store : Store) (out : Outcome)
    (s2 : Store) (st : Stats)
    (h : installContainer env store = .ok (out, s2, st)) :
    st.reads = if out = Outcome.alreadyInstalled then 1 else 2 := by
  unfold installContainer at h
  split at h
  · simp at h
  · simp only [Except.ok.injEq, Prod.mk.injEq] at h
    rw [← h.1, ← h.2.2]
    rfl
  · unfold installCont at h
    split at h
    · simp at h
    · split at h
      · simp at h
      · simp only [Except.ok.injEq, Prod.mk.injEq] at h
        rw [← h.1, ← h.2.2]
        rfl
      · simp only [Except.ok.injEq, Prod.mk.injEq] at h
        rw [← h.1, ← h.2.2]
        rfl

/-- Witness for C9 (amended): an already-installed run performs one read. -/
theorem c9_witness :
    (⟨0, 0, 1⟩ : Stats).reads =
      if Outcome.alreadyInstalled = Outcome.alreadyInstalled then 1 else 2 :=
  c9_reads_per_check
    ⟨"z", "z", false, false, true, true, Except.ok [], fun s => s, 0⟩
    (some "z") Outcome.alreadyInstalled (some "z") ⟨0, 0, 1⟩ (by rfl)
